import Mathlib

/-!
Shallow embedding of the Sportex backend (`src/main.py`, `src/schemas.py`).

The document store adapter (`database.py`, imported by `main.py` but not part of
the sources) is modelled from the spec, §6: per collection it offers
`findOne`, `find`, `insert -> generated_id`, `updateOne`, `countDocuments`
with field-equality filters.  Collections whose documents always come from a
fixed pydantic schema are modelled as lists of structured records; athlete
profile documents, whose key set matters to the visibility claims, are
modelled as ordered association lists (Python dicts).
-/

set_option linter.unusedVariables false

namespace Sportex

/-- Role enum of `schemas.py` (`User.role` Literal). -/
inductive Role where
  | athlete
  | coach
  | organizer
  | admin
  | guest
deriving DecidableEq, Repr

/-- Privacy tiers of `schemas.py` (`User.privacy` Literal); the source's
`"private"` is rendered `private'` because `private` is a Lean keyword. -/
inductive Privacy where
  | public
  | limited
  | private'
deriving DecidableEq, Repr

/-- Registration statuses of `schemas.py` (`Registration.status` Literal). -/
inductive RegStatus where
  | pending
  | confirmed
  | waitlisted
  | cancelled
deriving DecidableEq, Repr

/-- Notification types of `schemas.py` (`Notification.type` Literal). -/
inductive NotifType where
  | invite
  | event_update
  | system
deriving DecidableEq, Repr

/-- JSON-ish values stored in free-form document fields (stats maps, media
lists, ...).  Decimal amounts such as the seeded `ppg` stats are represented
exactly as rationals. -/
inductive Value where
  | str : String → Value
  | int : Int → Value
  | rat : Rat → Value
  | bool : Bool → Value
  | null : Value
  | list : List Value → Value
  | dict : List (String × Value) → Value

/-- A Python dict / Mongo document: ordered association list over string keys. -/
abbrev Doc := List (String × Value)

/-- Python `dict.get(k)`: value of the first (unique) binding of `k`. -/
def dget (d : Doc) (k : String) : Option Value :=
  match d with
  | [] => none
  | (k', v) :: rest => if k' = k then some v else dget rest k

/-- Like `dget`, but only succeeds on string-valued fields (the shape every
id-valued field has; a missing or non-string field compares unequal to any
string, exactly as in Python). -/
def dgetStr (d : Doc) (k : String) : Option String :=
  match dget d k with
  | some (Value.str s) => some s
  | _ => none

/-- Mongo `$set` of a single field: overwrite in place, or append a new key. -/
def setKey (d : Doc) (k : String) (v : Value) : Doc :=
  match d with
  | [] => [(k, v)]
  | (k', v') :: rest => if k' = k then (k, v) :: rest else (k', v') :: setKey rest k v

/-- Mongo `$set` with a partial update document. -/
def setKeys (d : Doc) (upd : Doc) : Doc :=
  upd.foldl (fun acc kv => setKey acc kv.1 kv.2) d

/-- Mongo `update_one`: rewrite the first element matching the filter. -/
def updateFirst {α : Type} (p : α → Bool) (f : α → α) : List α → List α
  | [] => []
  | x :: xs => if p x then f x :: xs else x :: updateFirst p f xs

/-- Modelled from the spec (§6): the Document Store Adapter's
`insert(record) -> generated_id` (`database.py` is not among the sources).
Generated ids are opaque strings; an injective unary encoding keeps the
model's freshness reasoning elementary. -/
def genId (n : Nat) : String := String.mk (List.replicate n 'd')

/-- Modelled from the spec (§4.3): bcrypt password hashing.  The hash is
opaque to every claim, so a marked placeholder is faithful here. -/
def hash_password (password : String) : String := "bcrypt$" ++ password

/-- User collection record (`schemas.py` class `User`), with the store's
generated `id`. -/
structure User where
  id : String
  email : String
  password_hash : String
  name : String
  role : Role := .athlete
  avatar_url : Option String := none
  location : Option String := none
  is_active : Bool := true
  privacy : Privacy := .public
deriving DecidableEq, Repr

/-- Team collection record (`schemas.py` class `Team`). -/
structure Team where
  id : String
  name : String
  coach_user_id : String
  sport : String
  location : Option String := none
  roster_user_ids : List String := []
deriving DecidableEq, Repr

/-- Event collection record (`schemas.py` class `Event`); timestamps are
epoch seconds. -/
structure Event where
  id : String
  title : String
  sport : String
  description : Option String := none
  location : String
  starts_at : Int
  ends_at : Int
  capacity : Int := 100
  organizer_user_id : String
deriving DecidableEq, Repr

/-- Registration collection record (`schemas.py` class `Registration`). -/
structure Registration where
  id : String
  event_id : String
  user_id : String
  status : RegStatus := .pending
deriving DecidableEq, Repr

/-- Notification collection record (`schemas.py` class `Notification`). -/
structure Notification where
  id : String
  user_id : String
  type : NotifType := .system
  title : String
  body : String
  read : Bool := false
deriving DecidableEq, Repr

/-- Moderation target types (`schemas.py` class `Moderation`). -/
inductive TargetType where
  | user
  | athleteprofile
  | team
  | event
deriving DecidableEq, Repr

/-- Moderation actions (`schemas.py` class `Moderation`). -/
inductive ModAction where
  | approve
  | reject
  | flag
  | suspend
deriving DecidableEq, Repr

/-- Moderation collection record. -/
structure Moderation where
  id : String
  target_type : TargetType
  target_id : String
  action : ModAction
  reason : Option String := none
deriving DecidableEq, Repr

/-- The whole document store: one list per collection plus the id generator's
counter. -/
structure DB where
  users : List User := []
  athleteprofiles : List Doc := []
  teams : List Team := []
  events : List Event := []
  registrations : List Registration := []
  notifications : List Notification := []
  moderations : List Moderation := []
  nextId : Nat := 0

/-- HTTP error taxonomy of `main.py` (`HTTPException` status codes);
`internal` is an unhandled exception escaping a handler (status 500). -/
inductive Err where
  | badRequest
  | unauthorized
  | forbidden
  | notFound
  | internal
deriving DecidableEq, Repr

/-- Request body of `POST /auth/register` (`main.py` class `RegisterPayload`);
pydantic validates `role` against the schema's Literal, hence the enum. -/
structure RegisterPayload where
  email : String
  password : String
  name : String
  role : Role := .athlete

/-- Request body of `POST /athletes/me` (`main.py` class `ProfilePayload`). -/
structure ProfilePayload where
  sport : String
  position : Option String := none
  bio : Option String := none
  height_cm : Option Int := none
  weight_kg : Option Int := none
  stats : List (String × Value) := []
  achievements : List String := []
  media : List Value := []

/-- Request body of `POST /teams` (`main.py` class `TeamCreate`). -/
structure TeamCreate where
  name : String
  sport : String
  location : Option String := none

/-- Request body of `POST /events` (`main.py` class `EventCreate`). -/
structure EventCreate where
  title : String
  sport : String
  description : Option String := none
  location : String
  starts_at : Int
  ends_at : Int
  capacity : Int := 100

/-- Request body of `POST /admin/moderate` (a `Moderation` before the store
assigns its id). -/
structure ModerationPayload where
  target_type : TargetType
  target_id : String
  action : ModAction
  reason : Option String := none

/-- Value of an optional string field in a `model_dump` document. -/
def optStr : Option String → Value
  | some s => .str s
  | none => .null

/-- Value of an optional integer field in a `model_dump` document. -/
def optInt : Option Int → Value
  | some i => .int i
  | none => .null

/-- Modelled from the spec (§6): `create_document` stores a dict record under
a generated id; the stored document carries the id both as `id` and `_id`
(cf. the paired `find_one({"id": x}) or find_one({"_id": x})` call sites in
`main.py`). -/
def createDoc (pid : String) (payload : Doc) : Doc :=
  payload ++ [("id", Value.str pid), ("_id", Value.str pid)]

/-- `POST /auth/register` (`main.py` lines 136-150): reject duplicate emails,
else insert the user.  The JWT returned to the caller is not modelled (no
claim concerns token contents); the generated user id stands in for it. -/
def authRegister (s : DB) (p : RegisterPayload) : DB × Except Err String :=
  if s.users.any (fun u => u.email == p.email) then
    (s, .error .badRequest)
  else
    let u : User :=
      { id := genId s.nextId
      , email := p.email
      , password_hash := hash_password p.password
      , name := p.name
      , role := p.role }
    ({ s with users := s.users ++ [u], nextId := s.nextId + 1 }, .ok u.id)

/-- `model_dump` of `AthleteProfileSchema(user_id=..., **payload)` followed by
`payload.update({"updated_at": now})` (`main.py` lines 173-175); field order
is the schema's declaration order.  `recent_performance` is absent from
`ProfilePayload` and therefore always dumps as its default `[]`. -/
def profilePayloadDoc (uid : String) (p : ProfilePayload) (now : Int) : Doc :=
  match p with
  | ⟨sport, position, bioText, height_cm, weight_kg, stats, achievements, media⟩ =>
    [ ("user_id", .str uid)
    , ("sport", .str sport)
    , ("position", optStr position)
    , ("bio", optStr bioText)
    , ("height_cm", optInt height_cm)
    , ("weight_kg", optInt weight_kg)
    , ("stats", .dict stats)
    , ("achievements", .list (achievements.map .str))
    , ("media", .list media)
    , ("recent_performance", .list [])
    , ("updated_at", .int now) ]

/-- `POST /athletes/me` (`main.py` lines 169-182): update the caller's
profile document in place (`$set` of the full payload, matched by `_id`),
or insert a fresh one. -/
def upsertProfile (s : DB) (current : User) (p : ProfilePayload) (now : Int) :
    DB × Option Doc :=
  let uid := current.id
  match s.athleteprofiles.find? (fun d => dgetStr d "user_id" == some uid) with
  | some existing =>
    let payload := profilePayloadDoc uid p now
    let profiles :=
      updateFirst (fun d => dgetStr d "_id" == dgetStr existing "_id")
        (fun d => setKeys d payload) s.athleteprofiles
    let s' := { s with athleteprofiles := profiles }
    (s', profiles.find? (fun d => dgetStr d "_id" == dgetStr existing "_id"))
  | none =>
    let pid := genId s.nextId
    let doc := createDoc pid (profilePayloadDoc uid p now)
    ({ s with athleteprofiles := s.athleteprofiles ++ [doc], nextId := s.nextId + 1 },
     some doc)

/-- `POST /teams` (`main.py` lines 239-246): coaches, organizers and admins
may create a team owned by themselves. -/
def createTeam (s : DB) (current : User) (p : TeamCreate) : DB × Except Err Team :=
  if current.role = .coach ∨ current.role = .organizer ∨ current.role = .admin then
    let t : Team :=
      { id := genId s.nextId
      , name := p.name
      , coach_user_id := current.id
      , sport := p.sport
      , location := p.location }
    ({ s with teams := s.teams ++ [t], nextId := s.nextId + 1 }, .ok t)
  else
    (s, .error .forbidden)

/-- `POST /teams/{team_id}/add` (`main.py` lines 257-270).  Note the source's
authorization condition verbatim: it raises 403 when the caller's role is
outside `("coach", "admin")` **or** the caller is not the team's
`coach_user_id`. -/
def addToRoster (s : DB) (teamId userId : String) (current : User) :
    DB × Except Err (List String) :=
  match s.teams.find? (fun t => t.id == teamId) with
  | none => (s, .error .notFound)
  | some team =>
    if ¬(current.role = .coach ∨ current.role = .admin) ∨ team.coach_user_id ≠ current.id then
      (s, .error .forbidden)
    else if userId ∈ team.roster_user_ids then
      (s, .ok team.roster_user_ids)
    else
      let roster := team.roster_user_ids ++ [userId]
      let teams :=
        updateFirst (fun t => t.id == teamId)
          (fun t => { t with roster_user_ids := roster }) s.teams
      let notif : Notification :=
        { id := genId s.nextId
        , user_id := userId
        , type := .invite
        , title := "Team Invite"
        , body := "You were added to " ++ team.name }
      ({ s with teams := teams
              , notifications := s.notifications ++ [notif]
              , nextId := s.nextId + 1 }, .ok roster)

/-- `POST /events` (`main.py` lines 284-300): organizers, coaches and admins
may create an event; the payload's `capacity` (any pydantic `int`) is stored
unvalidated. -/
def createEvent (s : DB) (current : User) (p : EventCreate) : DB × Except Err Event :=
  if current.role = .organizer ∨ current.role = .coach ∨ current.role = .admin then
    let e : Event :=
      { id := genId s.nextId
      , title := p.title
      , sport := p.sport
      , description := p.description
      , location := p.location
      , starts_at := p.starts_at
      , ends_at := p.ends_at
      , capacity := p.capacity
      , organizer_user_id := current.id }
    ({ s with events := s.events ++ [e], nextId := s.nextId + 1 }, .ok e)
  else
    (s, .error .forbidden)

/-- `count_documents({"event_id": eid, "status": {"$in": ["pending", "confirmed"]}})`
(`main.py` line 332). -/
def pcCount (regs : List Registration) (eid : String) : Nat :=
  (regs.filter (fun r =>
    r.event_id == eid && (r.status == RegStatus.pending || r.status == RegStatus.confirmed))).length

/-- Registrations of an event in the `confirmed` bucket. -/
def confirmedCount (regs : List Registration) (eid : String) : Nat :=
  (regs.filter (fun r => r.event_id == eid && r.status == RegStatus.confirmed)).length

/-- `POST /events/{event_id}/register` (`main.py` lines 324-338).  `notifOk`
models whether the un-guarded `create_document("notification", ...)` call on
line 337 succeeds; when it raises, the exception escapes the handler (there
is no `try`/`except`), but the registration written on line 335 stays
committed. -/
def registerEventF (notifOk : Bool) (s : DB) (eventId : String) (current : User) :
    DB × Except Err Registration :=
  match s.events.find? (fun e => e.id == eventId) with
  | none => (s, .error .notFound)
  | some evt =>
    match s.registrations.find? (fun r => r.event_id == eventId && r.user_id == current.id) with
    | some existing => (s, .ok existing)
    | none =>
      let count := pcCount s.registrations eventId
      let st := if (count : Int) < evt.capacity then RegStatus.confirmed else RegStatus.waitlisted
      let rid := genId s.nextId
      let reg : Registration := { id := rid, event_id := eventId, user_id := current.id, status := st }
      let s1 := { s with registrations := s.registrations ++ [reg], nextId := s.nextId + 1 }
      if notifOk then
        let notif : Notification :=
          { id := genId s1.nextId
          , user_id := evt.organizer_user_id
          , type := .event_update
          , title := "New Registration"
          , body := "New registration for " ++ evt.title }
        let s2 := { s1 with notifications := s1.notifications ++ [notif], nextId := s1.nextId + 1 }
        (s2, .ok ((s2.registrations.find? (fun r => r.id == rid)).getD { reg with id := rid }))
      else
        (s1, .error .internal)

/-- The registration handler on its normal path (notification insert succeeds). -/
def registerEvent (s : DB) (eventId : String) (current : User) : DB × Except Err Registration :=
  registerEventF true s eventId current

/-- `POST /notifications/{notif_id}/read` (`main.py` lines 363-366): a bare
`update_one({"id": notif_id}, {"$set": {"read": True}})`; the authenticated
caller is resolved but otherwise unused. -/
def markRead (s : DB) (notifId : String) (current : User) : DB × Bool :=
  let notifs :=
    updateFirst (fun n => n.id == notifId) (fun n => { n with read := true })
      s.notifications
  ({ s with notifications := notifs }, true)

/-- `POST /admin/moderate` (`main.py` lines 383-388). -/
def moderate (s : DB) (current : User) (m : ModerationPayload) : DB × Except Err Unit :=
  if current.role = .admin then
    let record : Moderation :=
      { id := genId s.nextId
      , target_type := m.target_type
      , target_id := m.target_id
      , action := m.action
      , reason := m.reason }
    ({ s with moderations := s.moderations ++ [record], nextId := s.nextId + 1 }, .ok ())
  else
    (s, .error .forbidden)

/-- Seeded sports rotation (`main.py` line 402). -/
def sportsList : List String := ["basketball", "soccer", "track", "volleyball"]

/-- Seeded positions rotation (`main.py` line 409). -/
def positionsList : List String := ["G", "F", "M", "S"]

/-- Modelled from the spec: ISO calendar-date rendering of a timestamp
(`datetime.date().isoformat()`); no claim inspects these strings. -/
def isoDate (t : Int) : String := "date:" ++ toString t

/-- The i-th seeded athlete user (`main.py` line 405). -/
def seedAthleteUser (i : Nat) (uid : String) : User :=
  { id := uid
  , email := "athlete" ++ toString (i + 1) ++ "@sportex.io"
  , password_hash := hash_password "pass1234"
  , name := "Athlete " ++ toString (i + 1)
  , role := .athlete
  , location := some "Austin, TX" }

/-- The i-th seeded athlete profile document (`main.py` lines 406-416); the
dumped field order is the schema's, and the decimal stat values are carried
exactly as rationals. -/
def seedAthleteProfile (i : Nat) (uid pid : String) (now : Int) : Doc :=
  createDoc pid
    [ ("user_id", .str uid)
    , ("sport", .str (sportsList.getD (i % 4) ""))
    , ("position", .str (positionsList.getD (i % 4) ""))
    , ("bio", .str "Aspiring athlete ready to compete.")
    , ("height_cm", .null)
    , ("weight_kg", .null)
    , ("stats", .dict [ ("ppg", .rat ((80 + 7 * (i : Rat)) / 10))
                      , ("apg", .rat ((20 + 3 * (i : Rat)) / 10)) ])
    , ("achievements",
        if i % 2 = 0 then .list [.str "All-County", .str "MVP Nominee"]
        else .list [.str "All-Conference"])
    , ("media", .list [.dict [ ("type", .str "image")
                             , ("url", .str "https://placehold.co/600x400")
                             , ("thumb", .str "https://placehold.co/300x200") ]])
    , ("recent_performance", .list ((List.range 5).map (fun d =>
        .dict [ ("date", .str (isoDate (now - 86400 * (d : Int))))
              , ("metric", .str "ppg")
              , ("value", .rat ((60 + 10 * ((i % 5 : Nat) : Rat) + 2 * (d : Rat)) / 10)) ]))) ]

/-- `POST /seed` (`main.py` lines 392-433): a no-op once any user exists;
otherwise creates admin/coach/organizer, ten athletes with profiles (ids
alternate user, profile), one team whose roster is then set to the first five
athletes, two events, and three `confirmed` registrations of the first three
athletes for the first event.  The id counter advances once per
`create_document` call, in source order. -/
def seed (s : DB) (now : Int) : DB × String :=
  if s.users.length > 0 then (s, "Already seeded")
  else
    let n := s.nextId
    let adminU : User :=
      { id := genId n, email := "admin@sportex.io"
      , password_hash := hash_password "admin123", name := "Admin", role := .admin }
    let coachU : User :=
      { id := genId (n + 1), email := "coach@sportex.io"
      , password_hash := hash_password "coach123", name := "Coach Carla", role := .coach
      , location := some "Austin, TX" }
    let orgU : User :=
      { id := genId (n + 2), email := "org@sportex.io"
      , password_hash := hash_password "org123", name := "Org Omar", role := .organizer
      , location := some "Dallas, TX" }
    let athleteUsers := (List.range 10).map (fun i => seedAthleteUser i (genId (n + 3 + 2 * i)))
    let athleteProfiles := (List.range 10).map (fun i =>
      seedAthleteProfile i (genId (n + 3 + 2 * i)) (genId (n + 4 + 2 * i)) now)
    let athletes := athleteUsers.map (fun u => u.id)
    let team : Team :=
      { id := genId (n + 23), name := "Austin Hawks", coach_user_id := coachU.id
      , sport := "basketball", location := some "Austin, TX"
      , roster_user_ids := athletes.take 5 }
    let e1 : Event :=
      { id := genId (n + 24), title := "Spring Showcase", sport := "basketball"
      , description := some "Open run for scouts", location := "Austin, TX"
      , starts_at := now + 7 * 86400, ends_at := now + 7 * 86400 + 3 * 3600
      , capacity := 50, organizer_user_id := orgU.id }
    let e2 : Event :=
      { id := genId (n + 25), title := "Summer Combine", sport := "soccer"
      , description := some "Drills and scrimmages", location := "Dallas, TX"
      , starts_at := now + 21 * 86400, ends_at := now + 21 * 86400 + 4 * 3600
      , capacity := 80, organizer_user_id := orgU.id }
    let regs := (athletes.take 3).enum.map (fun p =>
      ({ id := genId (n + 26 + p.1), event_id := e1.id, user_id := p.2
       , status := RegStatus.confirmed } : Registration))
    ({ s with users := s.users ++ [adminU, coachU, orgU] ++ athleteUsers
            , athleteprofiles := s.athleteprofiles ++ athleteProfiles
            , teams := s.teams ++ [team]
            , events := s.events ++ [e1, e2]
            , registrations := s.registrations ++ regs
            , nextId := n + 29 }, "Seeded")

/-- `find_one({"id": athlete_id}) or find_one({"_id": athlete_id})` over the
athlete profile collection (`main.py` line 187). -/
def findProfile (profiles : List Doc) (athleteId : String) : Option Doc :=
  (profiles.find? (fun d => dgetStr d "id" == some athleteId)).orElse
    (fun _ => profiles.find? (fun d => dgetStr d "_id" == some athleteId))

/-- `db["user"].find_one({"id": owner_id})` where `owner_id = doc.get("user_id")`
(`main.py` lines 191-192); a missing or non-string `user_id` matches no user. -/
def ownerFor (users : List User) (d : Doc) : Option User :=
  match dgetStr d "user_id" with
  | some uid => users.find? (fun u => u.id == uid)
  | none => none

/-- `(find_one(...) or {}).get("privacy", "public")` (`main.py` lines 192-193):
the owning user's tier, defaulting to `public` when the owner is not found.
(User documents made by the schema always carry `privacy`.) -/
def privacyFor (users : List User) (d : Doc) : Privacy :=
  match ownerFor users d with
  | some owner => owner.privacy
  | none => .public

/-- The field whitelist of the limited view (`main.py` line 197). -/
def limitedKeys : List String := ["sport", "position", "stats", "achievements", "media"]

/-- `{k: doc[k] for k in [...] if k in doc}` (`main.py` line 197). -/
def limitedDoc (d : Doc) : Doc :=
  limitedKeys.filterMap (fun k => (dget d k).map (fun v => (k, v)))

/-- `GET /athletes/{athlete_id}` (`main.py` lines 185-198): look the profile
up, then apply the privacy rules — `private` hides the profile from
non-owner, non-admin callers; `limited` strips it down to `limitedKeys`;
otherwise the stored document is returned in full. -/
def getAthlete (s : DB) (athleteId : String) (current : User) : Except Err Doc :=
  match findProfile s.athleteprofiles athleteId with
  | none => .error .notFound
  | some doc =>
    let ownerId := dgetStr doc "user_id"
    let privacy := privacyFor s.users doc
    if privacy = .private' ∧ ownerId ≠ some current.id ∧ current.role ≠ .admin then
      .error .forbidden
    else if privacy = .limited ∧ ownerId ≠ some current.id ∧ current.role ≠ .admin then
      .ok (limitedDoc doc)
    else
      .ok doc

/-- The empty store the service starts from. -/
def DB.init : DB := {}

/-- States reachable from the empty store by sequential execution of the
API's mutating handlers (read-only handlers leave the store unchanged).  The
`current ∈ s.users` side conditions mirror `get_current_user`, which resolves
a bearer token to an existing user document; `POST /seed` is unauthenticated.
`step_register_event` covers both outcomes of the unguarded notification
insert (`notifOk`), since a failed insert still leaves the registration
committed. -/
inductive Reachable : DB → Prop where
  | init : Reachable DB.init
  | step_auth_register {s : DB} (p : RegisterPayload) :
      Reachable s → Reachable (authRegister s p).1
  | step_upsert_profile {s : DB} (current : User) (p : ProfilePayload) (now : Int) :
      Reachable s → current ∈ s.users → Reachable (upsertProfile s current p now).1
  | step_create_team {s : DB} (current : User) (p : TeamCreate) :
      Reachable s → current ∈ s.users → Reachable (createTeam s current p).1
  | step_add_to_roster {s : DB} (teamId userId : String) (current : User) :
      Reachable s → current ∈ s.users → Reachable (addToRoster s teamId userId current).1
  | step_create_event {s : DB} (current : User) (p : EventCreate) :
      Reachable s → current ∈ s.users → Reachable (createEvent s current p).1
  | step_register_event {s : DB} (notifOk : Bool) (eventId : String) (current : User) :
      Reachable s → current ∈ s.users → Reachable (registerEventF notifOk s eventId current).1
  | step_mark_read {s : DB} (notifId : String) (current : User) :
      Reachable s → current ∈ s.users → Reachable (markRead s notifId current).1
  | step_moderate {s : DB} (current : User) (m : ModerationPayload) :
      Reachable s → current ∈ s.users → Reachable (moderate s current m).1
  | step_seed {s : DB} (now : Int) :
      Reachable s → Reachable (seed s now).1

/-! ### Helper lemmas -/

theorem genId_inj {a b : Nat} (h : genId a = genId b) : a = b := by
  have h' := congrArg String.length h
  simpa [genId, String.length] using h'

theorem length_filter_mono {α : Type} (p q : α → Bool) (l : List α)
    (h : ∀ a, p a = true → q a = true) :
    (l.filter p).length ≤ (l.filter q).length := by
  induction l with
  | nil => simp
  | cons x xs ih =>
    by_cases hpx : p x = true
    · have hqx := h x hpx
      simp only [List.filter_cons, hpx, if_true, hqx, List.length_cons]
      omega
    · simp only [List.filter_cons, hpx, if_false, Bool.false_eq_true]
      by_cases hqx : q x = true
      · simp only [hqx, if_true, List.length_cons]
        omega
      · simp only [hqx, Bool.false_eq_true, if_false]
        exact ih

theorem confirmedCount_le_pcCount (regs : List Registration) (eid : String) :
    confirmedCount regs eid ≤ pcCount regs eid := by
  apply length_filter_mono
  intro r hr
  rw [Bool.and_eq_true] at hr
  rcases hr with ⟨h1, h2⟩
  simp [h1, h2]

theorem confirmedCount_append (l1 l2 : List Registration) (eid : String) :
    confirmedCount (l1 ++ l2) eid = confirmedCount l1 eid + confirmedCount l2 eid := by
  simp [confirmedCount, List.filter_append]

theorem confirmedCount_of_no_match (regs : List Registration) (eid : String)
    (h : ∀ r ∈ regs, r.event_id ≠ eid) : confirmedCount regs eid = 0 := by
  simp only [confirmedCount, List.length_eq_zero]
  rw [List.filter_eq_nil_iff]
  intro r hr
  simp [h r hr]

/-! ### C1 and C2: the registration/capacity engine -/

/-- How a first-time registration for an existing event changes the store and
what it answers (shared workhorse behind the capacity claims). -/
theorem register_new_registration (s : DB) (eventId : String) (current : User) (evt : Event)
    (hevt : s.events.find? (fun e => e.id == eventId) = some evt)
    (hnew : s.registrations.find? (fun r => r.event_id == eventId && r.user_id == current.id) = none)
    (hfresh : ∀ r ∈ s.registrations, r.id ≠ genId s.nextId) :
    (registerEvent s eventId current).1.registrations
        = s.registrations ++
          [{ id := genId s.nextId, event_id := eventId, user_id := current.id
           , status := if (pcCount s.registrations eventId : Int) < evt.capacity
                       then RegStatus.confirmed else RegStatus.waitlisted }]
    ∧ (registerEvent s eventId current).2
        = .ok { id := genId s.nextId, event_id := eventId, user_id := current.id
              , status := if (pcCount s.registrations eventId : Int) < evt.capacity
                          then RegStatus.confirmed else RegStatus.waitlisted } := by
  have hfind : (s.registrations ++
      [({ id := genId s.nextId, event_id := eventId, user_id := current.id
        , status := if (pcCount s.registrations eventId : Int) < evt.capacity
                    then RegStatus.confirmed else RegStatus.waitlisted } : Registration)]).find?
        (fun r => r.id == genId s.nextId)
      = some { id := genId s.nextId, event_id := eventId, user_id := current.id
             , status := if (pcCount s.registrations eventId : Int) < evt.capacity
                         then RegStatus.confirmed else RegStatus.waitlisted } := by
    rw [List.find?_append]
    have hnone : s.registrations.find? (fun r => r.id == genId s.nextId) = none := by
      rw [List.find?_eq_none]
      intro r hr
      simpa using hfresh r hr
    rw [hnone]
    simp
  simp only [registerEvent, registerEventF, hevt, hnew, hfind]
  exact ⟨rfl, rfl⟩

/-- C1: on a first-time registration request for an existing event, a new
Registration is appended whose status is `confirmed` exactly when the number
of pending-or-confirmed registrations of the event is strictly below the
event's capacity, and `waitlisted` otherwise; the handler returns that new
record.  (The freshness hypothesis holds of every store-generated state,
where ids below the counter are pairwise distinct.) -/
theorem register_capacity_decision (s : DB) (eventId : String) (current : User) (evt : Event)
    (hevt : s.events.find? (fun e => e.id == eventId) = some evt)
    (hnew : s.registrations.find? (fun r => r.event_id == eventId && r.user_id == current.id) = none)
    (hfresh : ∀ r ∈ s.registrations, r.id ≠ genId s.nextId) :
    (registerEvent s eventId current).1.registrations
        = s.registrations ++
          [{ id := genId s.nextId, event_id := eventId, user_id := current.id
           , status := if (pcCount s.registrations eventId : Int) < evt.capacity
                       then RegStatus.confirmed else RegStatus.waitlisted }]
    ∧ (registerEvent s eventId current).2
        = .ok { id := genId s.nextId, event_id := eventId, user_id := current.id
              , status := if (pcCount s.registrations eventId : Int) < evt.capacity
                          then RegStatus.confirmed else RegStatus.waitlisted } :=
  register_new_registration s eventId current evt hevt hnew hfresh

/-- Witness for `register_capacity_decision` at a one-slot event in a
two-user store. -/
theorem register_capacity_decision_witness :
    (registerEvent { users := [{ id := "u1", email := "a@x.io", password_hash := "h", name := "A" }]
                   , events := [{ id := "e1", title := "T", sport := "basketball", location := "L"
                                , starts_at := 0, ends_at := 1, capacity := 1
                                , organizer_user_id := "org1" }] } "e1"
        { id := "u1", email := "a@x.io", password_hash := "h", name := "A" }).1.registrations
      = [{ id := genId 0, event_id := "e1", user_id := "u1"
         , status := if ((pcCount [] "e1" : Nat) : Int) < 1
                     then RegStatus.confirmed else RegStatus.waitlisted }]
    ∧ (registerEvent { users := [{ id := "u1", email := "a@x.io", password_hash := "h", name := "A" }]
                     , events := [{ id := "e1", title := "T", sport := "basketball", location := "L"
                                  , starts_at := 0, ends_at := 1, capacity := 1
                                  , organizer_user_id := "org1" }] } "e1"
          { id := "u1", email := "a@x.io", password_hash := "h", name := "A" }).2
      = .ok { id := genId 0, event_id := "e1", user_id := "u1"
            , status := if ((pcCount [] "e1" : Nat) : Int) < 1
                        then RegStatus.confirmed else RegStatus.waitlisted } :=
  register_capacity_decision _ "e1" _
    { id := "e1", title := "T", sport := "basketball", location := "L"
    , starts_at := 0, ends_at := 1, capacity := 1, organizer_user_id := "org1" }
    rfl rfl (by simp)

/-- C2: when a Registration for `(event_id, user_id)` already exists (any
status), the handler returns it and changes nothing — no new Registration, no
new Notification — whether or not a notification insert could succeed. -/
theorem register_idempotent (notifOk : Bool) (s : DB) (eventId : String) (current : User)
    (evt : Event) (r : Registration)
    (hevt : s.events.find? (fun e => e.id == eventId) = some evt)
    (hex : s.registrations.find? (fun r => r.event_id == eventId && r.user_id == current.id) = some r) :
    registerEventF notifOk s eventId current = (s, .ok r) := by
  simp [registerEventF, hevt, hex]

/-- Witness for `register_idempotent`: a second registration of the same user
returns the stored record and leaves the store untouched. -/
theorem register_idempotent_witness :
    registerEventF true
        { users := [{ id := "u1", email := "a@x.io", password_hash := "h", name := "A" }]
        , events := [{ id := "e1", title := "T", sport := "basketball", location := "L"
                     , starts_at := 0, ends_at := 1, capacity := 1, organizer_user_id := "org1" }]
        , registrations := [{ id := "r1", event_id := "e1", user_id := "u1"
                            , status := RegStatus.pending }] } "e1"
        { id := "u1", email := "a@x.io", password_hash := "h", name := "A" }
      = ({ users := [{ id := "u1", email := "a@x.io", password_hash := "h", name := "A" }]
         , events := [{ id := "e1", title := "T", sport := "basketball", location := "L"
                      , starts_at := 0, ends_at := 1, capacity := 1, organizer_user_id := "org1" }]
         , registrations := [{ id := "r1", event_id := "e1", user_id := "u1"
                             , status := RegStatus.pending }] },
         .ok { id := "r1", event_id := "e1", user_id := "u1", status := RegStatus.pending }) :=
  register_idempotent true _ "e1" _
    { id := "e1", title := "T", sport := "basketball", location := "L"
    , starts_at := 0, ends_at := 1, capacity := 1, organizer_user_id := "org1" }
    { id := "r1", event_id := "e1", user_id := "u1", status := RegStatus.pending }
    rfl rfl

/-! ### C4, C5, C6, C10: the profile visibility engine -/

theorem dgetStr_user_id_of_ownerFor {users : List User} {d : Doc} {owner : User}
    (howner : ownerFor users d = some owner) :
    dgetStr d "user_id" = some owner.id := by
  rcases hu : dgetStr d "user_id" with _ | uid
  · rw [ownerFor, hu] at howner
    exact absurd howner (by simp)
  · rw [ownerFor, hu] at howner
    have howner' : users.find? (fun u => u.id == uid) = some owner := howner
    have hpred := List.find?_some howner'
    have hid : owner.id = uid := by simpa using hpred
    rw [hid]


/-- C5: a profile whose owner's privacy tier is `private` is hidden with a
403 from every caller who is neither that owner nor an admin. -/
theorem private_profile_forbidden (s : DB) (athleteId : String) (d : Doc)
    (owner current : User)
    (hfind : findProfile s.athleteprofiles athleteId = some d)
    (howner : ownerFor s.users d = some owner)
    (hpriv : owner.privacy = .private')
    (hnotowner : current.id ≠ owner.id)
    (hnotadmin : current.role ≠ .admin) :
    getAthlete s athleteId current = .error .forbidden := by
  have hu := dgetStr_user_id_of_ownerFor howner
  have hpv : privacyFor s.users d = .private' := by
    simp [privacyFor, howner, hpriv]
  have hne : dgetStr d "user_id" ≠ some current.id := by
    rw [hu]
    intro hc
    injection hc with hc'
    exact hnotowner hc'.symm
  simp [getAthlete, hfind, hpv, hne, hnotadmin]

/-- Witness for `private_profile_forbidden`. -/
theorem private_profile_forbidden_witness :
    getAthlete
        { users := [{ id := "o1", email := "o@x.io", password_hash := "h", name := "O"
                    , privacy := .private' }
                   , { id := "u2", email := "b@x.io", password_hash := "h", name := "B" }]
        , athleteprofiles := [createDoc "a1"
            [ ("user_id", .str "o1"), ("sport", .str "soccer"), ("position", .null)
            , ("bio", .str "hi"), ("height_cm", .int 180), ("weight_kg", .null)
            , ("stats", .dict []), ("achievements", .list []), ("media", .list [])
            , ("recent_performance", .list []) ]] } "a1"
        { id := "u2", email := "b@x.io", password_hash := "h", name := "B" }
      = .error .forbidden :=
  private_profile_forbidden _ "a1" _
    { id := "o1", email := "o@x.io", password_hash := "h", name := "O", privacy := .private' }
    _ rfl rfl rfl (by decide) (by decide)

/-- C4: a profile whose owner's privacy tier is `limited`, requested by a
caller who is neither the owner nor an admin, is returned redacted to
exactly the whitelist `{sport, position, stats, achievements, media}` — no
other field survives.  (The key-presence hypothesis holds of every stored
profile document, all of which are dumps of the full `Athleteprofile`
schema.) -/
theorem limited_profile_exact_fields (s : DB) (athleteId : String) (d : Doc)
    (owner current : User)
    (hfind : findProfile s.athleteprofiles athleteId = some d)
    (howner : ownerFor s.users d = some owner)
    (hpriv : owner.privacy = .limited)
    (hnotowner : current.id ≠ owner.id)
    (hnotadmin : current.role ≠ .admin)
    (hkeys : ∀ k ∈ limitedKeys, (dget d k).isSome = true) :
    getAthlete s athleteId current = .ok (limitedDoc d)
    ∧ (limitedDoc d).map Prod.fst = limitedKeys := by
  have hu := dgetStr_user_id_of_ownerFor howner
  have hpv : privacyFor s.users d = .limited := by
    simp [privacyFor, howner, hpriv]
  have hne : dgetStr d "user_id" ≠ some current.id := by
    rw [hu]
    intro hc
    injection hc with hc'
    exact hnotowner hc'.symm
  constructor
  · simp [getAthlete, hfind, hpv, hne, hnotadmin]
  · have h1 := hkeys "sport" (by simp [limitedKeys])
    have h2 := hkeys "position" (by simp [limitedKeys])
    have h3 := hkeys "stats" (by simp [limitedKeys])
    have h4 := hkeys "achievements" (by simp [limitedKeys])
    have h5 := hkeys "media" (by simp [limitedKeys])
    rcases hv1 : dget d "sport" with _ | v1
    · rw [hv1] at h1; simp at h1
    rcases hv2 : dget d "position" with _ | v2
    · rw [hv2] at h2; simp at h2
    rcases hv3 : dget d "stats" with _ | v3
    · rw [hv3] at h3; simp at h3
    rcases hv4 : dget d "achievements" with _ | v4
    · rw [hv4] at h4; simp at h4
    rcases hv5 : dget d "media" with _ | v5
    · rw [hv5] at h5; simp at h5
    simp [limitedDoc, limitedKeys, hv1, hv2, hv3, hv4, hv5]

/-- Witness for `limited_profile_exact_fields`. -/
theorem limited_profile_exact_fields_witness :
    getAthlete
        { users := [{ id := "o1", email := "o@x.io", password_hash := "h", name := "O"
                    , privacy := .limited }
                   , { id := "u2", email := "b@x.io", password_hash := "h", name := "B" }]
        , athleteprofiles := [createDoc "a1"
            [ ("user_id", .str "o1"), ("sport", .str "soccer"), ("position", .null)
            , ("bio", .str "hi"), ("height_cm", .int 180), ("weight_kg", .null)
            , ("stats", .dict []), ("achievements", .list []), ("media", .list [])
            , ("recent_performance", .list []) ]] } "a1"
        { id := "u2", email := "b@x.io", password_hash := "h", name := "B" }
      = .ok (limitedDoc (createDoc "a1"
            [ ("user_id", .str "o1"), ("sport", .str "soccer"), ("position", .null)
            , ("bio", .str "hi"), ("height_cm", .int 180), ("weight_kg", .null)
            , ("stats", .dict []), ("achievements", .list []), ("media", .list [])
            , ("recent_performance", .list []) ]))
    ∧ (limitedDoc (createDoc "a1"
            [ ("user_id", .str "o1"), ("sport", .str "soccer"), ("position", .null)
            , ("bio", .str "hi"), ("height_cm", .int 180), ("weight_kg", .null)
            , ("stats", .dict []), ("achievements", .list []), ("media", .list [])
            , ("recent_performance", .list []) ])).map Prod.fst = limitedKeys :=
  limited_profile_exact_fields _ "a1" _
    { id := "o1", email := "o@x.io", password_hash := "h", name := "O", privacy := .limited }
    _ rfl rfl rfl (by decide) (by decide) (by decide)

/-- C6: an admin caller — and likewise the profile's owner — always receives
the stored profile document in full, whatever the owner's privacy tier. -/
theorem owner_admin_full_view (s : DB) (athleteId : String) (d : Doc) (current : User)
    (hfind : findProfile s.athleteprofiles athleteId = some d)
    (h : current.role = .admin ∨ dgetStr d "user_id" = some current.id) :
    getAthlete s athleteId current = .ok d := by
  rcases h with hadmin | howner
  · simp [getAthlete, hfind, hadmin]
  · simp [getAthlete, hfind, howner]

/-- Witness for `owner_admin_full_view`: an admin reads a `private` profile
in full. -/
theorem owner_admin_full_view_witness :
    getAthlete
        { users := [{ id := "o1", email := "o@x.io", password_hash := "h", name := "O"
                    , privacy := .private' }
                   , { id := "adm", email := "ad@x.io", password_hash := "h", name := "Ad"
                     , role := .admin }]
        , athleteprofiles := [createDoc "a1"
            [ ("user_id", .str "o1"), ("sport", .str "soccer"), ("position", .null)
            , ("bio", .str "hi"), ("height_cm", .int 180), ("weight_kg", .null)
            , ("stats", .dict []), ("achievements", .list []), ("media", .list [])
            , ("recent_performance", .list []) ]] } "a1"
        { id := "adm", email := "ad@x.io", password_hash := "h", name := "Ad", role := .admin }
      = .ok (createDoc "a1"
            [ ("user_id", .str "o1"), ("sport", .str "soccer"), ("position", .null)
            , ("bio", .str "hi"), ("height_cm", .int 180), ("weight_kg", .null)
            , ("stats", .dict []), ("achievements", .list []), ("media", .list [])
            , ("recent_performance", .list []) ]) :=
  owner_admin_full_view _ "a1" _ _ rfl (Or.inl rfl)

/-- C10: when a stored profile's `user_id` matches no user record, the
privacy lookup defaults to `public` and the full document is returned to any
authenticated caller. -/
theorem orphan_profile_public (s : DB) (athleteId : String) (d : Doc) (uid : String)
    (current : User)
    (hfind : findProfile s.athleteprofiles athleteId = some d)
    (huid : dgetStr d "user_id" = some uid)
    (hnouser : ∀ u ∈ s.users, u.id ≠ uid) :
    getAthlete s athleteId current = .ok d := by
  have howner : ownerFor s.users d = none := by
    rw [ownerFor, huid, List.find?_eq_none]
    intro u hu
    simpa using hnouser u hu
  have hpv : privacyFor s.users d = .public := by
    simp [privacyFor, howner]
  simp [getAthlete, hfind, hpv]

/-- Witness for `orphan_profile_public`: the profile's owner id matches no
user, so a stranger sees the full document. -/
theorem orphan_profile_public_witness :
    getAthlete
        { users := [{ id := "u2", email := "b@x.io", password_hash := "h", name := "B" }]
        , athleteprofiles := [createDoc "a1"
            [ ("user_id", .str "ghost"), ("sport", .str "soccer"), ("position", .null)
            , ("bio", .str "hi"), ("height_cm", .int 180), ("weight_kg", .null)
            , ("stats", .dict []), ("achievements", .list []), ("media", .list [])
            , ("recent_performance", .list []) ]] } "a1"
        { id := "u2", email := "b@x.io", password_hash := "h", name := "B" }
      = .ok (createDoc "a1"
            [ ("user_id", .str "ghost"), ("sport", .str "soccer"), ("position", .null)
            , ("bio", .str "hi"), ("height_cm", .int 180), ("weight_kg", .null)
            , ("stats", .dict []), ("achievements", .list []), ("media", .list [])
            , ("recent_performance", .list []) ]) :=
  orphan_profile_public _ "a1" _ "ghost" _ rfl rfl (by decide)

/-! ### C7: roster mutation authorization -/

/-- Counterexample to C7 as stated: an admin who is not the team's recorded
coach is rejected with 403 by `POST /teams/{team_id}/add` (the source's
condition `role not in ("coach", "admin") or team.coach_user_id != current.id`
demands ownership from admins too), and the store is left unchanged. -/
theorem roster_admin_rejected_cex :
    addToRoster
        { users := [{ id := "c1", email := "c@x.io", password_hash := "h", name := "C"
                    , role := .coach }
                   , { id := "adm", email := "ad@x.io", password_hash := "h", name := "Ad"
                     , role := .admin }]
        , teams := [{ id := "t1", name := "N", coach_user_id := "c1", sport := "s" }] }
        "t1" "u9"
        { id := "adm", email := "ad@x.io", password_hash := "h", name := "Ad", role := .admin }
      = ({ users := [{ id := "c1", email := "c@x.io", password_hash := "h", name := "C"
                     , role := .coach }
                    , { id := "adm", email := "ad@x.io", password_hash := "h", name := "Ad"
                      , role := .admin }]
         , teams := [{ id := "t1", name := "N", coach_user_id := "c1", sport := "s" }] },
         .error .forbidden) := rfl

/-- C7 (amended): `POST /teams/{team_id}/add` on an existing team responds
403 Forbidden exactly when the caller's role is outside `{coach, admin}` or
the caller is not the team's recorded `coach_user_id` — so only the recorded
coach of a team (whose role is coach or admin) can mutate its roster, and an
admin who is not that recorded coach is rejected. -/
theorem roster_auth_requires_ownership (s : DB) (teamId userId : String) (current : User)
    (team : Team)
    (hfind : s.teams.find? (fun t => t.id == teamId) = some team) :
    (addToRoster s teamId userId current).2 = .error .forbidden
      ↔ ¬((current.role = .coach ∨ current.role = .admin)
            ∧ team.coach_user_id = current.id) := by
  simp only [addToRoster, hfind]
  by_cases hc : ¬(current.role = .coach ∨ current.role = .admin)
      ∨ team.coach_user_id ≠ current.id
  · rw [if_pos hc]
    simp only [true_iff]
    tauto
  · rw [if_neg hc]
    push_neg at hc
    by_cases hm : userId ∈ team.roster_user_ids
    · rw [if_pos hm]
      constructor
      · intro h
        exact absurd h (by simp)
      · intro h
        exact absurd ⟨hc.1, hc.2⟩ h
    · rw [if_neg hm]
      constructor
      · intro h
        exact absurd h (by simp)
      · intro h
        exact absurd ⟨hc.1, hc.2⟩ h

/-- Witness for `roster_auth_requires_ownership`: the owning coach is not
rejected. -/
theorem roster_auth_requires_ownership_witness :
    (addToRoster
        { users := [{ id := "c1", email := "c@x.io", password_hash := "h", name := "C"
                    , role := .coach }]
        , teams := [{ id := "t1", name := "N", coach_user_id := "c1", sport := "s" }] }
        "t1" "u9"
        { id := "c1", email := "c@x.io", password_hash := "h", name := "C", role := .coach }).2
        = .error .forbidden
      ↔ ¬((Role.coach = .coach ∨ Role.coach = .admin) ∧ "c1" = "c1") :=
  roster_auth_requires_ownership _ "t1" "u9"
    { id := "c1", email := "c@x.io", password_hash := "h", name := "C", role := .coach }
    { id := "t1", name := "N", coach_user_id := "c1", sport := "s" } rfl

/-! ### C8: notification failure during registration -/

/-- Counterexample to C8 as stated: when the organizer-notification insert of
a first-time registration raises, the handler has no `try`/`except`, so the
request does **not** still succeed — the error escapes to the caller. -/
theorem notif_failure_error_cex :
    (registerEventF false
        { users := [{ id := "u1", email := "a@x.io", password_hash := "h", name := "A" }]
        , events := [{ id := "e1", title := "T", sport := "basketball", location := "L"
                     , starts_at := 0, ends_at := 1, capacity := 1
                     , organizer_user_id := "org1" }] } "e1"
        { id := "u1", email := "a@x.io", password_hash := "h", name := "A" }).2
      = .error .internal := rfl

/-- C8 (amended): if the organizer-notification insert of a first-time
registration fails, the error propagates to the caller (the request fails
with an internal error), but the Registration written beforehand stays
committed and no notification is recorded — the failure never undoes the
registration. -/
theorem notif_failure_keeps_registration (s : DB) (eventId : String) (current : User)
    (evt : Event)
    (hevt : s.events.find? (fun e => e.id == eventId) = some evt)
    (hnew : s.registrations.find?
      (fun r => r.event_id == eventId && r.user_id == current.id) = none) :
    (registerEventF false s eventId current).2 = .error .internal
    ∧ (registerEventF false s eventId current).1.registrations
        = s.registrations ++
          [{ id := genId s.nextId, event_id := eventId, user_id := current.id
           , status := if (pcCount s.registrations eventId : Int) < evt.capacity
                       then RegStatus.confirmed else RegStatus.waitlisted }]
    ∧ (registerEventF false s eventId current).1.notifications = s.notifications := by
  refine ⟨?_, ?_, ?_⟩ <;> simp [registerEventF, hevt, hnew]

/-- Witness for `notif_failure_keeps_registration`. -/
theorem notif_failure_keeps_registration_witness :
    (registerEventF false
        { users := [{ id := "u1", email := "a@x.io", password_hash := "h", name := "A" }]
        , events := [{ id := "e1", title := "T", sport := "basketball", location := "L"
                     , starts_at := 0, ends_at := 1, capacity := 1
                     , organizer_user_id := "org1" }] } "e1"
        { id := "u1", email := "a@x.io", password_hash := "h", name := "A" }).2
      = .error .internal
    ∧ (registerEventF false
        { users := [{ id := "u1", email := "a@x.io", password_hash := "h", name := "A" }]
        , events := [{ id := "e1", title := "T", sport := "basketball", location := "L"
                     , starts_at := 0, ends_at := 1, capacity := 1
                     , organizer_user_id := "org1" }] } "e1"
        { id := "u1", email := "a@x.io", password_hash := "h", name := "A" }).1.registrations
      = [] ++ [{ id := genId 0, event_id := "e1", user_id := "u1"
               , status := if (pcCount [] "e1" : Int) < 1
                           then RegStatus.confirmed else RegStatus.waitlisted }]
    ∧ (registerEventF false
        { users := [{ id := "u1", email := "a@x.io", password_hash := "h", name := "A" }]
        , events := [{ id := "e1", title := "T", sport := "basketball", location := "L"
                     , starts_at := 0, ends_at := 1, capacity := 1
                     , organizer_user_id := "org1" }] } "e1"
        { id := "u1", email := "a@x.io", password_hash := "h", name := "A" }).1.notifications
      = [] :=
  notif_failure_keeps_registration _ "e1" _
    { id := "e1", title := "T", sport := "basketball", location := "L"
    , starts_at := 0, ends_at := 1, capacity := 1, organizer_user_id := "org1" }
    rfl rfl

/-! ### C9: marking notifications read -/

/-- Counterexample to C9 as stated: a caller who is **not** the recipient
(`user_id` `"u1"`, caller `"u2"`) still flips the notification's read flag to
true — the handler never checks ownership. -/
theorem mark_read_foreign_caller_cex :
    (markRead
        { users := [{ id := "u1", email := "a@x.io", password_hash := "h", name := "A" }
                   , { id := "u2", email := "b@x.io", password_hash := "h", name := "B" }]
        , notifications := [{ id := "n1", user_id := "u1", title := "t", body := "b" }] }
        "n1"
        { id := "u2", email := "b@x.io", password_hash := "h", name := "B" }).1.notifications
      = [{ id := "n1", user_id := "u1", title := "t", body := "b", read := true }] := rfl

theorem find?_updateFirst {α : Type} (p : α → Bool) (f : α → α) (l : List α)
    (hpf : ∀ a, p a = true → p (f a) = true) :
    (updateFirst p f l).find? p = (l.find? p).map f := by
  induction l with
  | nil => simp [updateFirst]
  | cons x xs ih =>
    by_cases hx : p x = true
    · rw [updateFirst, if_pos hx, List.find?_cons_of_pos _ (hpf x hx),
        List.find?_cons_of_pos _ hx]
      rfl
    · rw [updateFirst, if_neg hx, List.find?_cons_of_neg _ hx, List.find?_cons_of_neg _ hx]
      exact ih

/-- C9 (amended): `POST /notifications/{notif_id}/read` sets the read flag of
the stored notification with the given id to true for **any** authenticated
caller — the handler performs no recipient check, and its result does not
depend on the caller at all. -/
theorem mark_read_ignores_caller (s : DB) (notifId : String) (current other : User)
    (n : Notification)
    (hfind : s.notifications.find? (fun m => m.id == notifId) = some n) :
    (markRead s notifId current).1.notifications.find? (fun m => m.id == notifId)
        = some { n with read := true }
    ∧ markRead s notifId current = markRead s notifId other := by
  constructor
  · have h := find?_updateFirst (fun m : Notification => m.id == notifId)
      (fun m => { m with read := true }) s.notifications (fun a ha => ha)
    simp only [markRead]
    rw [h, hfind]
    rfl
  · rfl

/-- Witness for `mark_read_ignores_caller` at a non-recipient caller. -/
theorem mark_read_ignores_caller_witness :
    (markRead
        { users := [{ id := "u1", email := "a@x.io", password_hash := "h", name := "A" }
                   , { id := "u2", email := "b@x.io", password_hash := "h", name := "B" }]
        , notifications := [{ id := "n1", user_id := "u1", title := "t", body := "b" }] }
        "n1"
        { id := "u2", email := "b@x.io", password_hash := "h", name := "B" }).1.notifications.find?
          (fun m => m.id == "n1")
      = some { id := "n1", user_id := "u1", title := "t", body := "b", read := true }
    ∧ markRead
        { users := [{ id := "u1", email := "a@x.io", password_hash := "h", name := "A" }
                   , { id := "u2", email := "b@x.io", password_hash := "h", name := "B" }]
        , notifications := [{ id := "n1", user_id := "u1", title := "t", body := "b" }] }
        "n1"
        { id := "u2", email := "b@x.io", password_hash := "h", name := "B" }
      = markRead
        { users := [{ id := "u1", email := "a@x.io", password_hash := "h", name := "A" }
                   , { id := "u2", email := "b@x.io", password_hash := "h", name := "B" }]
        , notifications := [{ id := "n1", user_id := "u1", title := "t", body := "b" }] }
        "n1"
        { id := "u1", email := "a@x.io", password_hash := "h", name := "A" } :=
  mark_read_ignores_caller _ "n1" _
    { id := "u1", email := "a@x.io", password_hash := "h", name := "A" }
    { id := "n1", user_id := "u1", title := "t", body := "b" } rfl

/-! ### C3: the capacity invariant over reachable states -/

/-- An id handed out by the store before the counter reached `n`. -/
def idOk (x : String) (n : Nat) : Prop := ∃ k, k < n ∧ x = genId k

theorem idOk_mono {x : String} {n m : Nat} (h : idOk x n) (hnm : n ≤ m) : idOk x m := by
  rcases h with ⟨k, hk, rfl⟩
  exact ⟨k, lt_of_lt_of_le hk hnm, rfl⟩

theorem idOk_ne_fresh {x : String} {n : Nat} (h : idOk x n) : x ≠ genId n := by
  rcases h with ⟨k, hk, rfl⟩
  intro hc
  exact absurd (genId_inj hc) (Nat.ne_of_lt hk)

/-- The inductive invariant carried through every reachable state: stored
events and registrations have store-generated (hence pairwise distinct) ids,
registrations reference stored events, an empty user table forces empty
event/registration tables (every mutating handler but `seed` authenticates),
and the capacity bound itself. -/
structure Inv (s : DB) : Prop where
  evIds : ∀ e ∈ s.events, idOk e.id s.nextId
  regIds : ∀ r ∈ s.registrations, idOk r.id s.nextId
  evNodup : (s.events.map Event.id).Nodup
  regRef : ∀ r ∈ s.registrations, ∃ e ∈ s.events, e.id = r.event_id
  emptyUsers : s.users = [] → s.events = [] ∧ s.registrations = []
  cap : ∀ e ∈ s.events, 0 ≤ e.capacity →
        (confirmedCount s.registrations e.id : Int) ≤ e.capacity

theorem Inv.frame {s s' : DB} (h : Inv s)
    (hev : s'.events = s.events) (hreg : s'.registrations = s.registrations)
    (hn : s.nextId ≤ s'.nextId) (hu : s'.users = [] → s.users = []) : Inv s' := by
  refine ⟨?_, ?_, ?_, ?_, ?_, ?_⟩
  · rw [hev]
    exact fun e he => idOk_mono (h.evIds e he) hn
  · rw [hreg]
    exact fun r hr => idOk_mono (h.regIds r hr) hn
  · rw [hev]
    exact h.evNodup
  · rw [hreg, hev]
    exact h.regRef
  · intro hnil
    rw [hev, hreg]
    exact h.emptyUsers (hu hnil)
  · rw [hev, hreg]
    exact h.cap

theorem inv_authRegister (s : DB) (p : RegisterPayload) (h : Inv s) :
    Inv (authRegister s p).1 := by
  unfold authRegister
  split
  · exact h
  · refine h.frame rfl rfl (Nat.le_succ _) ?_
    intro hnil
    rcases List.append_eq_nil.mp hnil with ⟨h1, _⟩
    exact h1

theorem inv_upsertProfile (s : DB) (current : User) (p : ProfilePayload) (now : Int)
    (h : Inv s) : Inv (upsertProfile s current p now).1 := by
  simp only [upsertProfile]
  split
  · exact h.frame rfl rfl le_rfl (fun hh => hh)
  · exact h.frame rfl rfl (Nat.le_succ _) (fun hh => hh)

theorem inv_createTeam (s : DB) (current : User) (p : TeamCreate) (h : Inv s) :
    Inv (createTeam s current p).1 := by
  unfold createTeam
  split
  · exact h.frame rfl rfl (Nat.le_succ _) (fun hh => hh)
  · exact h

theorem inv_addToRoster (s : DB) (teamId userId : String) (current : User) (h : Inv s) :
    Inv (addToRoster s teamId userId current).1 := by
  unfold addToRoster
  split
  · exact h
  · split
    · exact h
    · split
      · exact h
      · exact h.frame rfl rfl (Nat.le_succ _) (fun hh => hh)

theorem inv_markRead (s : DB) (notifId : String) (current : User) (h : Inv s) :
    Inv (markRead s notifId current).1 :=
  h.frame rfl rfl le_rfl (fun hh => hh)

theorem inv_moderate (s : DB) (current : User) (m : ModerationPayload) (h : Inv s) :
    Inv (moderate s current m).1 := by
  unfold moderate
  split
  · exact h.frame rfl rfl (Nat.le_succ _) (fun hh => hh)
  · exact h

theorem inv_createEvent (s : DB) (current : User) (p : EventCreate)
    (hcur : current ∈ s.users) (h : Inv s) : Inv (createEvent s current p).1 := by
  unfold createEvent
  split
  · refine ⟨?_, ?_, ?_, ?_, ?_, ?_⟩
    · intro e he
      rcases List.mem_append.mp he with hmem | hmem
      · exact idOk_mono (h.evIds e hmem) (Nat.le_succ _)
      · rw [List.mem_singleton.mp hmem]
        exact ⟨s.nextId, Nat.lt_succ_self _, rfl⟩
    · exact fun r hr => idOk_mono (h.regIds r hr) (Nat.le_succ _)
    · rw [List.map_append]
      rw [List.nodup_append]
      refine ⟨h.evNodup, by simp, ?_⟩
      intro x hx hy
      simp only [List.map_cons, List.map_nil, List.mem_singleton] at hy
      rcases List.mem_map.mp hx with ⟨e, he, rfl⟩
      exact idOk_ne_fresh (h.evIds e he) hy
    · intro r hr
      rcases h.regRef r hr with ⟨e, he, heq⟩
      exact ⟨e, List.mem_append_left _ he, heq⟩
    · intro hnil
      exact absurd hcur (by rw [hnil]; simp)
    · intro e he hcap0
      rcases List.mem_append.mp he with hmem | hmem
      · exact h.cap e hmem hcap0
      · have hid : e.id = genId s.nextId := by
          rw [List.mem_singleton.mp hmem]
        have hzero : confirmedCount s.registrations e.id = 0 := by
          apply confirmedCount_of_no_match
          intro r hr
          rcases h.regRef r hr with ⟨e', he', heq⟩
          rw [hid, ← heq]
          exact idOk_ne_fresh (h.evIds e' he')
        rw [hzero]
        exact_mod_cast hcap0
  · exact h

/-- Count of a one-registration list. -/
theorem confirmedCount_singleton (r : Registration) (eid : String) :
    confirmedCount [r] eid
      = if r.event_id = eid ∧ r.status = RegStatus.confirmed then 1 else 0 := by
  by_cases h1 : r.event_id = eid <;> by_cases h2 : r.status = RegStatus.confirmed <;>
    simp [confirmedCount, List.filter_cons, h1, h2]

/-- Appending one registration bumps an event's confirmed count by one
exactly when it is a confirmed registration of that event. -/
theorem confirmedCount_append_one (regs : List Registration) (rid eid uid : String)
    (st : RegStatus) (eid' : String) :
    confirmedCount (regs ++ [{ id := rid, event_id := eid, user_id := uid, status := st }]) eid'
      = confirmedCount regs eid' + (if eid = eid' ∧ st = RegStatus.confirmed then 1 else 0) := by
  rw [confirmedCount_append, confirmedCount_singleton]

/-- The state component of the registration handler: either the store is
untouched (missing event or idempotent hit), or a fresh registration with
the engine-decided status is appended (whatever the notification outcome). -/
theorem registerEventF_state (notifOk : Bool) (s : DB) (eventId : String) (current : User) :
    (registerEventF notifOk s eventId current).1 = s
    ∨ ∃ evt, s.events.find? (fun e => e.id == eventId) = some evt
        ∧ s.registrations.find?
            (fun r => r.event_id == eventId && r.user_id == current.id) = none
        ∧ (registerEventF notifOk s eventId current).1.events = s.events
        ∧ (registerEventF notifOk s eventId current).1.users = s.users
        ∧ (registerEventF notifOk s eventId current).1.registrations
            = s.registrations ++
              [{ id := genId s.nextId, event_id := eventId, user_id := current.id
               , status := if (pcCount s.registrations eventId : Int) < evt.capacity
                           then RegStatus.confirmed else RegStatus.waitlisted }]
        ∧ s.nextId < (registerEventF notifOk s eventId current).1.nextId := by
  unfold registerEventF
  rcases hevt : s.events.find? (fun e => e.id == eventId) with _ | evt
  · left
    simp only [hevt]
  · rcases hex : s.registrations.find?
        (fun r => r.event_id == eventId && r.user_id == current.id) with _ | r
    · right
      refine ⟨evt, hevt, hex, ?_, ?_, ?_, ?_⟩
      · simp only [hevt, hex]
        cases notifOk <;> rfl
      · simp only [hevt, hex]
        cases notifOk <;> rfl
      · simp only [hevt, hex]
        cases notifOk <;> rfl
      · simp only [hevt, hex]
        cases notifOk
        · show s.nextId < s.nextId + 1
          omega
        · show s.nextId < s.nextId + 1 + 1
          omega
    · left
      simp only [hevt, hex]

theorem inv_registerEventF (notifOk : Bool) (s : DB) (eventId : String) (current : User)
    (hcur : current ∈ s.users) (h : Inv s) :
    Inv (registerEventF notifOk s eventId current).1 := by
  rcases registerEventF_state notifOk s eventId current with
    heq | ⟨evt, hevt, hnew, hev, hu, hreg, hn⟩
  · rw [heq]
    exact h
  · have hevtmem : evt ∈ s.events := List.mem_of_find?_eq_some hevt
    have hevtid : evt.id = eventId := by simpa using List.find?_some hevt
    refine ⟨?_, ?_, ?_, ?_, ?_, ?_⟩
    · rw [hev]
      exact fun e he => idOk_mono (h.evIds e he) (Nat.le_of_lt hn)
    · rw [hreg]
      intro r hr
      rcases List.mem_append.mp hr with hmem | hmem
      · exact idOk_mono (h.regIds r hmem) (Nat.le_of_lt hn)
      · rw [List.mem_singleton.mp hmem]
        exact ⟨s.nextId, hn, rfl⟩
    · rw [hev]
      exact h.evNodup
    · rw [hreg, hev]
      intro r hr
      rcases List.mem_append.mp hr with hmem | hmem
      · exact h.regRef r hmem
      · rw [List.mem_singleton.mp hmem]
        exact ⟨evt, hevtmem, hevtid⟩
    · intro hnil
      rw [hu] at hnil
      exact absurd hcur (by rw [hnil]; simp)
    · rw [hreg, hev]
      intro e he hcap0
      rw [confirmedCount_append_one]
      by_cases hid : e.id = eventId
      · have hee : evt = e :=
          List.inj_on_of_nodup_map h.evNodup hevtmem he (by rw [hevtid, hid])
        by_cases hlt : (pcCount s.registrations eventId : Int) < evt.capacity
        · rw [if_pos hlt, if_pos ⟨hid.symm, rfl⟩]
          have hle := confirmedCount_le_pcCount s.registrations eventId
          rw [hee] at hlt
          rw [hid]
          omega
        · rw [if_neg hlt]
          rw [if_neg (fun hc => absurd hc.2 (by simp))]
          have hbase := h.cap e he hcap0
          omega
      · rw [if_neg (fun hc => hid hc.1.symm)]
        have hbase := h.cap e he hcap0
        omega

/-- The first event created by `seed` (counter offset 24), in the normal
form its construction reduces to. -/
def seedEvent1 (n : Nat) (now : Int) : Event :=
  { id := genId (n + 24), title := "Spring Showcase", sport := "basketball"
  , description := some "Open run for scouts", location := "Austin, TX"
  , starts_at := now + 7 * 86400, ends_at := now + 7 * 86400 + 3 * 3600
  , capacity := 50, organizer_user_id := genId (n + 2) }

/-- The second event created by `seed` (counter offset 25). -/
def seedEvent2 (n : Nat) (now : Int) : Event :=
  { id := genId (n + 25), title := "Summer Combine", sport := "soccer"
  , description := some "Drills and scrimmages", location := "Dallas, TX"
  , starts_at := now + 21 * 86400, ends_at := now + 21 * 86400 + 4 * 3600
  , capacity := 80, organizer_user_id := genId (n + 2) }

/-- The three confirmed registrations created by `seed` (counter offsets
26-28), registering the first three seeded athletes for the first event. -/
def seedRegs (n : Nat) : List Registration :=
  [ { id := genId (n + 26), event_id := genId (n + 24), user_id := genId (n + 3)
    , status := .confirmed }
  , { id := genId (n + 27), event_id := genId (n + 24), user_id := genId (n + 5)
    , status := .confirmed }
  , { id := genId (n + 28), event_id := genId (n + 24), user_id := genId (n + 7)
    , status := .confirmed } ]

/-- How `seed` changes the collections the capacity invariant watches, when
it actually runs (empty user table). -/
theorem seed_state (s : DB) (now : Int) (husers : s.users = []) :
    (seed s now).1.users ≠ []
    ∧ (seed s now).1.events = s.events ++ [seedEvent1 s.nextId now, seedEvent2 s.nextId now]
    ∧ (seed s now).1.registrations = s.registrations ++ seedRegs s.nextId
    ∧ (seed s now).1.nextId = s.nextId + 29 := by
  have hcond : ¬ s.users.length > 0 := by rw [husers]; simp
  unfold seed
  rw [if_neg hcond]
  refine ⟨by simp [husers], rfl, rfl, rfl⟩

theorem inv_seed (s : DB) (now : Int) (h : Inv s) : Inv (seed s now).1 := by
  by_cases hcond : s.users.length > 0
  · have hs : (seed s now).1 = s := by
      unfold seed
      rw [if_pos hcond]
    rw [hs]
    exact h
  · have husers : s.users = [] := List.length_eq_zero.mp (Nat.eq_zero_of_not_pos hcond)
    obtain ⟨hev0, hreg0⟩ := h.emptyUsers husers
    obtain ⟨hu', hev', hreg', hn'⟩ := seed_state s now husers
    rw [hev0, List.nil_append] at hev'
    rw [hreg0, List.nil_append] at hreg'
    have hne12 : (seedEvent1 s.nextId now).id ≠ (seedEvent2 s.nextId now).id := by
      intro hc
      have := genId_inj hc
      omega
    refine ⟨?_, ?_, ?_, ?_, ?_, ?_⟩
    · rw [hev', hn']
      intro e he
      simp only [List.mem_cons, List.not_mem_nil, or_false] at he
      rcases he with rfl | rfl
      · exact ⟨s.nextId + 24, by omega, rfl⟩
      · exact ⟨s.nextId + 25, by omega, rfl⟩
    · rw [hreg', hn']
      intro r hr
      simp only [seedRegs, List.mem_cons, List.not_mem_nil, or_false] at hr
      rcases hr with rfl | rfl | rfl
      · exact ⟨s.nextId + 26, by omega, rfl⟩
      · exact ⟨s.nextId + 27, by omega, rfl⟩
      · exact ⟨s.nextId + 28, by omega, rfl⟩
    · rw [hev']
      simp [List.nodup_cons, hne12]
    · rw [hreg', hev']
      intro r hr
      simp only [seedRegs, List.mem_cons, List.not_mem_nil, or_false] at hr
      rcases hr with rfl | rfl | rfl <;> exact ⟨seedEvent1 s.nextId now, by simp, rfl⟩
    · intro hnil
      exact absurd hnil hu'
    · rw [hreg', hev']
      have hbeq : (genId (s.nextId + 24) == genId (s.nextId + 25)) = false := by
        rw [beq_eq_false_iff_ne]
        intro hc
        have := genId_inj hc
        omega
      intro e he hcap0
      simp only [List.mem_cons, List.not_mem_nil, or_false] at he
      rcases he with rfl | rfl
      · have hcount : confirmedCount (seedRegs s.nextId) (seedEvent1 s.nextId now).id = 3 := by
          simp [confirmedCount, seedRegs, seedEvent1, List.filter_cons]
        rw [hcount]
        show (3 : Int) ≤ 50
        norm_num
      · have hcount : confirmedCount (seedRegs s.nextId) (seedEvent2 s.nextId now).id = 0 := by
          simp [confirmedCount, seedRegs, seedEvent2, List.filter_cons, hbeq]
        rw [hcount]
        show (0 : Int) ≤ 80
        norm_num

/-- Every state reachable by sequential execution of the API's handlers
satisfies the inductive invariant. -/
theorem inv_of_reachable {s : DB} (h : Reachable s) : Inv s := by
  induction h with
  | init =>
    refine ⟨?_, ?_, ?_, ?_, ?_, ?_⟩ <;> simp [DB.init]
  | step_auth_register p _ ih => exact inv_authRegister _ p ih
  | step_upsert_profile current p now _ hcur ih => exact inv_upsertProfile _ current p now ih
  | step_create_team current p _ hcur ih => exact inv_createTeam _ current p ih
  | step_add_to_roster teamId userId current _ hcur ih =>
    exact inv_addToRoster _ teamId userId current ih
  | step_create_event current p _ hcur ih => exact inv_createEvent _ current p hcur ih
  | step_register_event notifOk eventId current _ hcur ih =>
    exact inv_registerEventF notifOk _ eventId current hcur ih
  | step_mark_read notifId current _ hcur ih => exact inv_markRead _ notifId current ih
  | step_moderate current m _ hcur ih => exact inv_moderate _ current m ih
  | step_seed now _ ih => exact inv_seed _ now ih

theorem find?_id_self {l : List Event} (hnd : (l.map Event.id).Nodup) {e : Event}
    (he : e ∈ l) : l.find? (fun x => x.id == e.id) = some e := by
  rcases hfind : l.find? (fun x => x.id == e.id) with _ | evt
  · rw [List.find?_eq_none] at hfind
    exact absurd (by simp : (e.id == e.id) = true) (hfind e he)
  · have hmem := List.mem_of_find?_eq_some hfind
    have hid : evt.id = e.id := by simpa using List.find?_some hfind
    rw [hfind]
    exact congrArg some (List.inj_on_of_nodup_map hnd hmem he hid)

/-- The organizer user created by the counterexample's first step. -/
def cexOrg : User :=
  { id := genId 0, email := "org@sportex.io", password_hash := hash_password "pw"
  , name := "Org", role := .organizer }

/-- A reachable state holding an event of capacity `-1`: `POST /auth/register`
(role organizer) followed by `POST /events` with `capacity = -1`, which the
unvalidated pydantic `int` field accepts. -/
def cexState : DB :=
  (createEvent (authRegister DB.init
      { email := "org@sportex.io", password := "pw", name := "Org", role := .organizer }).1
    cexOrg
    { title := "T", sport := "s", location := "L", starts_at := 0, ends_at := 1
    , capacity := -1 }).1

/-- The capacity `-1` event stored in `cexState`. -/
def cexEvent : Event :=
  { id := genId 1, title := "T", sport := "s", location := "L", starts_at := 0
  , ends_at := 1, capacity := -1, organizer_user_id := genId 0 }

/-- Counterexample to C3 as stated: a state reachable by two API calls holds
an event whose confirmed-registration count (zero) already exceeds its
capacity (`-1`), because `POST /events` stores any integer capacity
unvalidated. -/
theorem capacity_claim_cex :
    Reachable cexState ∧ cexEvent ∈ cexState.events
    ∧ ¬ ((confirmedCount cexState.registrations cexEvent.id : Int) ≤ cexEvent.capacity) := by
  refine ⟨?_, by decide, by decide⟩
  exact Reachable.step_create_event cexOrg _
    (Reachable.step_auth_register _ Reachable.init) (by decide)

/-- C3 (amended): in every reachable state, every stored event of
**nonnegative** capacity has at most `capacity` confirmed registrations; and
a first-time registration that would exceed a full event is stored as
`waitlisted` and answered successfully, never rejected.  (As stated the
claim fails only because `POST /events` also accepts negative capacities,
which no registration count can stay below.) -/
theorem confirmed_le_capacity_of_reachable (s : DB) (h : Reachable s) :
    ∀ e ∈ s.events,
      (0 ≤ e.capacity → (confirmedCount s.registrations e.id : Int) ≤ e.capacity)
      ∧ (∀ current : User,
          s.registrations.find?
              (fun r => r.event_id == e.id && r.user_id == current.id) = none →
          ¬ ((pcCount s.registrations e.id : Int) < e.capacity) →
          (registerEvent s e.id current).1.registrations
              = s.registrations ++
                [{ id := genId s.nextId, event_id := e.id, user_id := current.id
                 , status := RegStatus.waitlisted }]
          ∧ (registerEvent s e.id current).2
              = .ok { id := genId s.nextId, event_id := e.id, user_id := current.id
                    , status := RegStatus.waitlisted }) := by
  have inv := inv_of_reachable h
  intro e he
  refine ⟨fun h0 => inv.cap e he h0, ?_⟩
  intro current hnew hge
  have hfind := find?_id_self inv.evNodup he
  have hfresh : ∀ r ∈ s.registrations, r.id ≠ genId s.nextId :=
    fun r hr => idOk_ne_fresh (inv.regIds r hr)
  have hthm := register_new_registration s e.id current e hfind hnew hfresh
  rw [if_neg hge] at hthm
  exact hthm

/-- The organizer of the witness state for the capacity bound. -/
def wOrg : User :=
  { id := genId 0, email := "w@sportex.io", password_hash := hash_password "pw"
  , name := "W", role := .organizer }

/-- A reachable state holding a zero-capacity event. -/
def wCapState : DB :=
  (createEvent (authRegister DB.init
      { email := "w@sportex.io", password := "pw", name := "W", role := .organizer }).1
    wOrg
    { title := "T", sport := "s", location := "L", starts_at := 0, ends_at := 1
    , capacity := 0 }).1

/-- The zero-capacity event stored in `wCapState`. -/
def wCapEvent : Event :=
  { id := genId 1, title := "T", sport := "s", location := "L", starts_at := 0
  , ends_at := 1, capacity := 0, organizer_user_id := genId 0 }

/-- Witness for `confirmed_le_capacity_of_reachable`: in a reachable state
with a full (zero-capacity) event, the bound holds and a new registrant is
waitlisted, not rejected. -/
theorem confirmed_le_capacity_witness :
    (confirmedCount wCapState.registrations wCapEvent.id : Int) ≤ wCapEvent.capacity
    ∧ (registerEvent wCapState wCapEvent.id wOrg).2
        = .ok { id := genId wCapState.nextId, event_id := wCapEvent.id
              , user_id := wOrg.id, status := RegStatus.waitlisted } :=
  have hreach : Reachable wCapState :=
    Reachable.step_create_event wOrg _
      (Reachable.step_auth_register _ Reachable.init) (by decide)
  have hmain := confirmed_le_capacity_of_reachable wCapState hreach wCapEvent (by decide)
  ⟨hmain.1 (by decide), (hmain.2 wOrg (by decide) (by decide)).2⟩

end Sportex
